import Mathlib

/-
  Verification of the ProcessThreadManager concurrency core.

  Shallow embedding of the C++ sources:
    - src/ThreadPool.cpp / include/ThreadPool.h  (worker pool)
    - src/Synchronization.cpp / include/Synchronization.h
      (SafeMutex, Semaphore, RWLock, Barrier)

  Each mutex-protected critical section of the C++ code is embedded as one
  atomic transition on an explicit state record; blocking waits on condition
  variables are embedded as guards (the transition fires only when the wait
  predicate releases the thread).  Machine integers of the source (`int`,
  `size_t`, `long`) are embedded as `Int`/`Nat`; none of the modelled code
  relies on wrap-around.
-/

namespace PTManager

/-! ## ThreadPool (src/ThreadPool.cpp, include/ThreadPool.h) -/

/-- The `ThreadState` enumeration of include/ThreadPool.h. -/
inductive ThreadState where
  | IDLE
  | RUNNING
  | BLOCKED
  | TERMINATED
deriving DecidableEq, Repr

/-- Tasks are opaque `std::function<void()>` values; the scheduler never
inspects them, so we identify a task by an opaque label. -/
abbrev Task := Nat

/-- The shared state of a `ThreadPool`: the `stop` flag, the FIFO task queue
(front of the list = front of the `std::queue`), the per-worker state vector
and the `activeTasks` counter. -/
structure PoolState where
  stop : Bool
  tasks : List Task
  workerStates : List ThreadState
  activeTasks : Nat
deriving DecidableEq, Repr

/-- What one iteration of `ThreadPool::workerThread` does once
`condition.wait` has released the worker. -/
inductive WorkerAction where
  | terminate
  | runTask (t : Task)
  | loopAgain
deriving DecidableEq, Repr

/-- One iteration of the loop body of `ThreadPool::workerThread`
(src/ThreadPool.cpp lines 47-93), entered after `condition.wait(lock, ...)`
returns: if `stop && tasks.empty()` the worker marks itself TERMINATED and
exits; otherwise, if the queue is non-empty it pops the front task and runs
it; otherwise it loops.  Returns the action taken and the remaining queue. -/
def workerStep (stop : Bool) (tasks : List Task) : WorkerAction × List Task :=
  if stop && tasks.isEmpty then
    (WorkerAction.terminate, tasks)
  else
    match tasks with
    | t :: rest => (WorkerAction.runTask t, rest)
    | [] => (WorkerAction.loopAgain, [])

/-- `WorkerExec q ex` holds when a worker that keeps iterating `workerStep`
with the `stop` flag set, starting from queue `q`, executes exactly the task
list `ex` before terminating. -/
inductive WorkerExec : List Task → List Task → Prop where
  | term (q : List Task) :
      workerStep true q = (WorkerAction.terminate, q) → WorkerExec q []
  | run (q : List Task) (t : Task) (rest ex : List Task) :
      workerStep true q = (WorkerAction.runTask t, rest) →
      WorkerExec rest ex → WorkerExec q (t :: ex)

/-- Result of `ThreadPool::enqueue` (include/ThreadPool.h lines 65-89):
whether the task was accepted (`accepted = false` means the
`std::runtime_error` was thrown to the caller), the resulting pool state, and
how many `condition.notify_one()` calls were issued. -/
structure EnqueueOutcome where
  accepted : Bool
  pool : PoolState
  notifyOneCalls : Nat
deriving DecidableEq, Repr

/-- `ThreadPool::enqueue`: under `queueMutex`, if `stop` is set it throws
("Cannot enqueue on stopped ThreadPool") leaving the queue untouched;
otherwise it appends the task at the back of the queue, then calls
`condition.notify_one()` once. -/
def ThreadPool.enqueue (t : Task) (s : PoolState) : EnqueueOutcome :=
  if s.stop then
    { accepted := false, pool := s, notifyOneCalls := 0 }
  else
    { accepted := true
      pool := { s with tasks := s.tasks ++ [t] }
      notifyOneCalls := 1 }

/-- Result of `ThreadPool::shutdown`: the resulting pool state, how many
`condition.notify_all()` calls were issued, and whether the worker threads
were joined. -/
structure ShutdownOutcome where
  pool : PoolState
  notifyAllCalls : Nat
  joinedWorkers : Bool
deriving DecidableEq, Repr

/-- `ThreadPool::shutdown` (src/ThreadPool.cpp lines 135-153): under
`queueMutex`, if `stop` is already set it returns immediately; otherwise it
sets `stop`, then calls `condition.notify_all()` and joins every worker.
(The joined workers update their own `workerStates` entries; that happens in
their own `workerStep` transitions, not here.)  `stop` is never cleared
anywhere in the source, so any state after a completed first `shutdown()`
has `stop = true`. -/
def ThreadPool.shutdown (s : PoolState) : ShutdownOutcome :=
  if s.stop then
    { pool := s, notifyAllCalls := 0, joinedWorkers := false }
  else
    { pool := { s with stop := true }, notifyAllCalls := 1, joinedWorkers := true }

/-- `ThreadPool::getThreadState` (src/ThreadPool.cpp lines 164-171): if
`id >= workerStates.size()` it returns `TERMINATED`; otherwise it returns
`workerStates[id]` under `stateMutex`.  It only reads, so the pool state is
unchanged. -/
def ThreadPool.getThreadState (ws : List ThreadState) (id : Nat) : ThreadState :=
  if h : id < ws.length then ws.get ⟨id, h⟩
  else ThreadState.TERMINATED

/-! ## SafeMutex (src/Synchronization.cpp lines 6-91) -/

/-- Thread identifiers (`std::thread::id`); `none` in an `Option ThreadId`
plays the role of the default-constructed `std::thread::id()`. -/
abbrev ThreadId := Nat

/-- State of a `SafeMutex`: whether the underlying `std::timed_mutex` is
locked, the `owner` field (`none` = default `std::thread::id()`), and the
`lockCount` field (`std::atomic<int>`). -/
structure MutexState where
  mtxHeld : Bool
  owner : Option ThreadId
  lockCount : Int
deriving DecidableEq, Repr

/-- `SafeMutex::lock(timeout)` called by thread `tid` (src/Synchronization.cpp
lines 30-49), as one atomic transition: if `owner == this_thread` it returns
`false` at once (recursive-lock rejection); otherwise it runs
`mtx.try_lock_for(timeout)`, which can succeed only at an instant when the
underlying mutex is free — success stores the owner and increments
`lockCount`, and expiry of the timeout returns `false` with nothing
changed. -/
def SafeMutex.lock (tid : ThreadId) (s : MutexState) : Bool × MutexState :=
  if s.owner = some tid then (false, s)
  else if s.mtxHeld then (false, s)
  else (true, { mtxHeld := true, owner := some tid, lockCount := s.lockCount + 1 })

/-- `SafeMutex::tryLock` called by thread `tid` (src/Synchronization.cpp lines
59-68): a single `mtx.try_lock()` attempt, with no recursive-owner check;
it succeeds exactly when the underlying mutex is free, in which case it
stores the owner and increments `lockCount`. -/
def SafeMutex.tryLock (tid : ThreadId) (s : MutexState) : Bool × MutexState :=
  if s.mtxHeld then (false, s)
  else (true, { mtxHeld := true, owner := some tid, lockCount := s.lockCount + 1 })

/-- `SafeMutex::unlock` (src/Synchronization.cpp lines 76-80): clears the
owner, decrements `lockCount`, unlocks the underlying mutex.  The source
requires the caller to own the lock. -/
def SafeMutex.unlock (s : MutexState) : MutexState :=
  { mtxHeld := false, owner := none, lockCount := s.lockCount - 1 }

/-- States a `SafeMutex` can reach from construction
(`owner = std::thread::id()`, `lockCount = 0`, mutex unlocked) through its
API, with `unlock` called only by the current owner as the source's contract
demands. -/
inductive SafeMutex.Reachable : MutexState → Prop where
  | init : SafeMutex.Reachable ⟨false, none, 0⟩
  | lockStep (s : MutexState) (tid : ThreadId) :
      SafeMutex.Reachable s → SafeMutex.Reachable (SafeMutex.lock tid s).2
  | tryLockStep (s : MutexState) (tid : ThreadId) :
      SafeMutex.Reachable s → SafeMutex.Reachable (SafeMutex.tryLock tid s).2
  | unlockStep (s : MutexState) (tid : ThreadId) :
      SafeMutex.Reachable s → s.owner = some tid → SafeMutex.Reachable (SafeMutex.unlock s)

/-! ## Semaphore (src/Synchronization.cpp lines 124-235) -/

/-- State of a `Semaphore` wrapper: the `initialized` flag set by the
constructor according to the result of `sem_init`, and the value of the
underlying POSIX semaphore. -/
structure SemState where
  initialized : Bool
  value : Nat
deriving DecidableEq, Repr

/-- A `struct timespec` as filled by `clock_gettime(CLOCK_REALTIME, ...)`
and passed to `sem_timedwait`; both fields are non-negative there. -/
structure Timespec where
  tv_sec : Nat
  tv_nsec : Nat
deriving DecidableEq, Repr

/-- Total nanoseconds represented by a `timespec`. -/
def Timespec.toNanos (t : Timespec) : Nat :=
  t.tv_sec * 1000000000 + t.tv_nsec

/-- The absolute-deadline computation inside `Semaphore::timedWait`
(src/Synchronization.cpp lines 196-201), for current time `now` and a
timeout of `ms` milliseconds:
`long nsec = ts.tv_nsec + (timeout.count() % 1000) * 1000000;`
`ts.tv_sec += timeout.count() / 1000 + nsec / 1000000000;`
`ts.tv_nsec = nsec % 1000000000;`
(C `/` and `%` on the non-negative values involved agree with `Nat`
division and modulus). -/
def Semaphore.timedWaitDeadline (now : Timespec) (ms : Nat) : Timespec :=
  let nsec := now.tv_nsec + (ms % 1000) * 1000000
  { tv_sec := now.tv_sec + ms / 1000 + nsec / 1000000000
    tv_nsec := nsec % 1000000000 }

/-- `Semaphore::wait` (src/Synchronization.cpp lines 167-170):
`if (!initialized) return false; return sem_wait(&sem) == 0;`.
`semWait` is the behaviour of the external `sem_wait` call. -/
def Semaphore.wait (semWait : SemState → Bool × SemState) (s : SemState) :
    Bool × SemState :=
  if s.initialized = false then (false, s) else semWait s

/-- `Semaphore::tryWait` (src/Synchronization.cpp lines 179-182):
`if (!initialized) return false; return sem_trywait(&sem) == 0;`. -/
def Semaphore.tryWait (semTryWait : SemState → Bool × SemState) (s : SemState) :
    Bool × SemState :=
  if s.initialized = false then (false, s) else semTryWait s

/-- `Semaphore::timedWait` (src/Synchronization.cpp lines 193-204):
`if (!initialized) return false;` then it computes the absolute deadline and
calls `sem_timedwait(&sem, &ts)`. -/
def Semaphore.timedWait (semTimedWait : SemState → Timespec → Bool × SemState)
    (now : Timespec) (ms : Nat) (s : SemState) : Bool × SemState :=
  if s.initialized = false then (false, s)
  else semTimedWait s (Semaphore.timedWaitDeadline now ms)

/-- `Semaphore::post` (src/Synchronization.cpp lines 214-217):
`if (!initialized) return false; return sem_post(&sem) == 0;`. -/
def Semaphore.post (semPost : SemState → Bool × SemState) (s : SemState) :
    Bool × SemState :=
  if s.initialized = false then (false, s) else semPost s

/-- `Semaphore::getValue` (src/Synchronization.cpp lines 227-235):
`if (!initialized) return -1;` then `sem_getvalue`; on its success the read
value is returned, otherwise `-1`.  `semGetValue` returns `none` when the
external call fails. -/
def Semaphore.getValue (semGetValue : SemState → Option Int) (s : SemState) : Int :=
  if s.initialized = false then -1
  else
    match semGetValue s with
    | some v => v
    | none => -1

/-! ## RWLock (src/Synchronization.cpp lines 237-316) -/

/-- The three `int` counters of an `RWLock`. -/
structure RWState where
  readers : Int
  writers : Int
  waitingWriters : Int
deriving DecidableEq, Repr

/-- The wake-up action a release path performs. -/
inductive Wake where
  | oneWriter
  | allReaders
deriving DecidableEq, Repr

/-- The admission step of `RWLock::readLock` (src/Synchronization.cpp lines
254-263): once the wait `while (writers > 0 || waitingWriters > 0)` releases
the thread, it increments `readers`. -/
def RWLock.readLockAdmit (s : RWState) : RWState :=
  { s with readers := s.readers + 1 }

/-- `RWLock::readUnlock` (src/Synchronization.cpp lines 271-278): decrements
`readers`; if that made it zero it wakes one waiting writer
(`writeCV.notify_one()`), else wakes nobody. -/
def RWLock.readUnlock (s : RWState) : RWState × Option Wake :=
  let s' := { s with readers := s.readers - 1 }
  if s'.readers = 0 then (s', some Wake.oneWriter) else (s', none)

/-- The registration step of `RWLock::writeLock` (src/Synchronization.cpp
line 289): `waitingWriters++` before waiting. -/
def RWLock.writeRegister (s : RWState) : RWState :=
  { s with waitingWriters := s.waitingWriters + 1 }

/-- The admission step of `RWLock::writeLock` (src/Synchronization.cpp lines
292-297): once the wait `while (readers > 0 || writers > 0)` releases the
thread, it runs `waitingWriters--; writers++`. -/
def RWLock.writeAdmit (s : RWState) : RWState :=
  { s with waitingWriters := s.waitingWriters - 1, writers := s.writers + 1 }

/-- `RWLock::writeUnlock` (src/Synchronization.cpp lines 306-316): decrements
`writers`; then, if `waitingWriters > 0`, wakes one waiting writer
(`writeCV.notify_one()`), otherwise wakes all waiting readers
(`readCV.notify_all()`). -/
def RWLock.writeUnlock (s : RWState) : RWState × Wake :=
  let s' := { s with writers := s.writers - 1 }
  if s'.waitingWriters > 0 then (s', Wake.oneWriter) else (s', Wake.allReaders)

/-- States an `RWLock` can reach from construction (`readers = writers =
waitingWriters = 0`) through its API.  The guards on the admission steps are
the negated wait conditions of the source; the guards `readers > 0` /
`writers > 0` on the release steps encode the locking discipline that only a
thread currently holding the corresponding lock releases it (waiting-writer
count is "only decremented by a thread that previously incremented it"). -/
inductive RWLock.Reachable : RWState → Prop where
  | init : RWLock.Reachable ⟨0, 0, 0⟩
  | readAdmit (s : RWState) :
      RWLock.Reachable s → s.writers = 0 → s.waitingWriters = 0 →
      RWLock.Reachable (RWLock.readLockAdmit s)
  | readRelease (s : RWState) :
      RWLock.Reachable s → 0 < s.readers →
      RWLock.Reachable (RWLock.readUnlock s).1
  | writeRegisterStep (s : RWState) :
      RWLock.Reachable s → RWLock.Reachable (RWLock.writeRegister s)
  | writeAdmitStep (s : RWState) :
      RWLock.Reachable s → s.readers = 0 → s.writers = 0 → 0 < s.waitingWriters →
      RWLock.Reachable (RWLock.writeAdmit s)
  | writeRelease (s : RWState) :
      RWLock.Reachable s → 0 < s.writers →
      RWLock.Reachable (RWLock.writeUnlock s).1

/-! ## Barrier (src/Synchronization.cpp lines 318-360) -/

/-- State of a `Barrier`: the fixed `threshold` (party size) and the mutable
`count` and `generation` counters (`size_t` in the source). -/
structure BarrierState where
  threshold : Nat
  count : Nat
  generation : Nat
deriving DecidableEq, Repr

/-- One call of `Barrier::wait` (src/Synchronization.cpp lines 337-348) up to
the release decision, as the atomic section under the barrier's mutex: the
caller records `gen = generation`, then `if (++count == threshold)` it
advances the generation, resets the count and calls `cv.notify_all()`
(second component `true`); otherwise it starts waiting on
`cv.wait(lock, [gen] { return gen != generation; })` (second component
`false`). -/
def Barrier.arrive (s : BarrierState) : BarrierState × Bool :=
  if s.count + 1 = s.threshold then
    ({ s with generation := s.generation + 1, count := 0 }, true)
  else
    ({ s with count := s.count + 1 }, false)

/-- The wait predicate of `Barrier::wait` for a thread whose recorded
generation is `gen`: it can return iff `gen != generation`. -/
def Barrier.released (gen : Nat) (s : BarrierState) : Bool :=
  gen != s.generation

/-- `Barrier.Steps s t`: barrier state `t` arises from `s` by some number of
further `Barrier::wait` arrivals (the only operations a conforming client
performs while threads may be blocked in `wait`; `Barrier::reset` is
documented to be called only when nobody waits). -/
inductive Barrier.Steps : BarrierState → BarrierState → Prop where
  | refl (s : BarrierState) : Barrier.Steps s s
  | arrive (s t : BarrierState) :
      Barrier.Steps s t → Barrier.Steps s (Barrier.arrive t).1

/-! ## Helper invariants -/

/-- In every reachable `SafeMutex` state, an owner is recorded only while the
underlying mutex is locked (the owner is stored exactly on successful
acquisition and cleared on `unlock`). -/
theorem SafeMutex.reachable_owner_held {s : MutexState}
    (h : SafeMutex.Reachable s) : s.owner.isSome = true → s.mtxHeld = true := by
  induction h with
  | init => intro hh; simp at hh
  | lockStep s tid _ ih =>
      unfold SafeMutex.lock
      split
      · exact ih
      · split
        · exact ih
        · intro _; rfl
  | tryLockStep s tid _ ih =>
      unfold SafeMutex.tryLock
      split
      · exact ih
      · intro _; rfl
  | unlockStep s tid _ _ _ =>
      intro hh
      simp [SafeMutex.unlock] at hh

/-- In every reachable `RWLock` state the three counters are non-negative,
at most one writer is active, and an active writer excludes all readers. -/
theorem RWLock.reachable_counters {s : RWState} (h : RWLock.Reachable s) :
    0 ≤ s.readers ∧ 0 ≤ s.writers ∧ 0 ≤ s.waitingWriters ∧
    s.writers ≤ 1 ∧ (0 < s.writers → s.readers = 0) := by
  induction h with
  | init => decide
  | readAdmit s _ hw hww ih =>
      obtain ⟨h1, h2, h3, h4, h5⟩ := ih
      refine ⟨?_, ?_, ?_, ?_, ?_⟩ <;> simp [RWLock.readLockAdmit] <;> omega
  | readRelease s _ hr ih =>
      obtain ⟨h1, h2, h3, h4, h5⟩ := ih
      have h6 : 0 < s.writers → s.readers = 0 := h5
      refine ⟨?_, ?_, ?_, ?_, ?_⟩ <;>
        simp only [RWLock.readUnlock] <;> split <;> simp <;> omega
  | writeRegisterStep s _ ih =>
      obtain ⟨h1, h2, h3, h4, h5⟩ := ih
      refine ⟨?_, ?_, ?_, ?_, ?_⟩ <;> simp [RWLock.writeRegister] <;> omega
  | writeAdmitStep s _ hr hw hww ih =>
      obtain ⟨h1, h2, h3, h4, h5⟩ := ih
      refine ⟨?_, ?_, ?_, ?_, ?_⟩ <;> simp [RWLock.writeAdmit, hr, hw]
      all_goals omega
  | writeRelease s _ hw ih =>
      obtain ⟨h1, h2, h3, h4, h5⟩ := ih
      refine ⟨?_, ?_, ?_, ?_, ?_⟩ <;>
        simp only [RWLock.writeUnlock] <;> split <;> simp <;> omega

/-- `Barrier::wait` arrivals never decrease the generation counter. -/
theorem Barrier.steps_generation_le {s t : BarrierState}
    (h : Barrier.Steps s t) : s.generation ≤ t.generation := by
  induction h with
  | refl => exact le_refl _
  | arrive t _ ih =>
      refine le_trans ih ?_
      unfold Barrier.arrive
      split <;> simp

/-! ## Claim theorems -/

/-- Claim C1 (code bug): the spec, like the doc comment of
`ThreadPool::shutdown`, states that tasks still queued at shutdown are
discarded and never executed.  The code does the opposite: with the `stop`
flag set, a worker terminates only when the queue is empty, and otherwise
dequeues and runs the front task; so a worker that keeps iterating after
`shutdown()` executes every still-queued task (`WorkerExec q q`), and in
particular, with `stop = true` and task `42` queued, its next step runs
task `42` instead of terminating. -/
theorem ThreadPool.stoppedWorkerRunsQueuedTasks :
    (∀ q : List Task, WorkerExec q q) ∧
    workerStep true [42] = (WorkerAction.runTask 42, []) := by
  constructor
  · intro q
    induction q with
    | nil => exact WorkerExec.term [] rfl
    | cons t rest ih => exact WorkerExec.run (t :: rest) t rest rest rfl ih
  · rfl

/-- Claim C2, counterexample: the freshly constructed `RWLock` state
(`readers = writers = waitingWriters = 0`) is reachable, yet there the
claimed equivalence "active writer count > 0 iff active reader count = 0"
fails (no writer is active while the reader count is 0). -/
theorem RWLock.writerIffNoReadersFailsInitially :
    RWLock.Reachable ⟨0, 0, 0⟩ ∧
    ¬ (0 < (⟨0, 0, 0⟩ : RWState).writers ↔ (⟨0, 0, 0⟩ : RWState).readers = 0) :=
  ⟨RWLock.Reachable.init, by decide⟩

/-- Claim C2 (amended): in every reachable `RWLock` state the active writer
count is 0 or 1, and an active writer count greater than 0 implies the
active reader count is 0 (the converse direction of the claimed equivalence
fails, e.g. in the initial state). -/
theorem RWLock.writerExclusionInvariant (s : RWState) (h : RWLock.Reachable s) :
    (s.writers = 0 ∨ s.writers = 1) ∧ (0 < s.writers → s.readers = 0) := by
  obtain ⟨_, h2, _, h4, h5⟩ := RWLock.reachable_counters h
  exact ⟨by omega, h5⟩

theorem RWLock.writerExclusionInvariant_witness :
    ((RWLock.writeAdmit (RWLock.writeRegister ⟨0, 0, 0⟩)).writers = 0 ∨
      (RWLock.writeAdmit (RWLock.writeRegister ⟨0, 0, 0⟩)).writers = 1) ∧
    (0 < (RWLock.writeAdmit (RWLock.writeRegister ⟨0, 0, 0⟩)).writers →
      (RWLock.writeAdmit (RWLock.writeRegister ⟨0, 0, 0⟩)).readers = 0) :=
  RWLock.writerExclusionInvariant _
    (RWLock.Reachable.writeAdmitStep _
      (RWLock.Reachable.writeRegisterStep _ RWLock.Reachable.init)
      rfl rfl (by decide))

/-- Claim C3: in every reachable `SafeMutex` state, both `lock` (with any
timeout) and `tryLock` called by the thread that currently owns the lock
return `false` immediately and leave the mutex state — owner, lock count and
underlying mutex — unchanged.  (`lock` rejects via its explicit
recursive-owner check; `tryLock` fails because the underlying
`std::timed_mutex` is still locked while owned.) -/
theorem SafeMutex.recursiveAcquisitionRejected (s : MutexState) (tid : ThreadId)
    (hr : SafeMutex.Reachable s) (hown : s.owner = some tid) :
    SafeMutex.lock tid s = (false, s) ∧ SafeMutex.tryLock tid s = (false, s) := by
  have hheld : s.mtxHeld = true :=
    SafeMutex.reachable_owner_held hr (by simp [hown])
  constructor
  · simp [SafeMutex.lock, hown]
  · simp [SafeMutex.tryLock, hheld]

theorem SafeMutex.recursiveAcquisitionRejected_witness :
    SafeMutex.lock 0 ⟨true, some 0, 1⟩ = (false, ⟨true, some 0, 1⟩) ∧
    SafeMutex.tryLock 0 ⟨true, some 0, 1⟩ = (false, ⟨true, some 0, 1⟩) :=
  SafeMutex.recursiveAcquisitionRejected ⟨true, some 0, 1⟩ 0
    (SafeMutex.Reachable.tryLockStep ⟨false, none, 0⟩ 0 SafeMutex.Reachable.init)
    rfl

/-- Claim C4: for a `Barrier` with party size `threshold`, the arrival that
completes the generation (`count + 1 = threshold`) increments the generation
counter, resets the arrival count to 0, and issues `cv.notify_all()`, which
releases every thread waiting on any generation `g ≤` the old generation
(their wait predicate `gen != generation` becomes true); and a thread that
recorded generation `s.generation` when it began waiting can return from
`wait()` at a later barrier state `t` only when the generation counter has
advanced strictly past its recorded value. -/
theorem Barrier.generationReleaseSpec (s t : BarrierState)
    (hsteps : Barrier.Steps (Barrier.arrive s).1 t) :
    (s.count + 1 = s.threshold →
      (Barrier.arrive s).1.generation = s.generation + 1 ∧
      (Barrier.arrive s).1.count = 0 ∧
      (Barrier.arrive s).2 = true ∧
      ∀ g, g ≤ s.generation → Barrier.released g (Barrier.arrive s).1 = true) ∧
    (Barrier.released s.generation t = true → s.generation < t.generation) := by
  constructor
  · intro hfull
    refine ⟨?_, ?_, ?_, ?_⟩ <;> simp [Barrier.arrive, Barrier.released, hfull]
    intro g hg
    omega
  · intro hrel
    have hmono : (Barrier.arrive s).1.generation ≤ t.generation :=
      Barrier.steps_generation_le hsteps
    have hentry : s.generation ≤ (Barrier.arrive s).1.generation := by
      unfold Barrier.arrive
      split <;> simp
    have hne : s.generation ≠ t.generation := by
      simpa [Barrier.released, bne_iff_ne] using hrel
    omega

theorem Barrier.generationReleaseSpec_witness :
    (Barrier.arrive ⟨2, 1, 0⟩).1.generation = 1 ∧
    (Barrier.arrive ⟨2, 1, 0⟩).1.count = 0 ∧
    (Barrier.arrive ⟨2, 1, 0⟩).2 = true ∧
    (Barrier.released 0 (Barrier.arrive ⟨2, 1, 0⟩).1 = true →
      0 < (Barrier.arrive ⟨2, 1, 0⟩).1.generation) := by
  have h := Barrier.generationReleaseSpec ⟨2, 1, 0⟩ (Barrier.arrive ⟨2, 1, 0⟩).1
    (Barrier.Steps.refl _)
  obtain ⟨ha, hb⟩ := h
  obtain ⟨h1, h2, h3, _⟩ := ha rfl
  exact ⟨h1, h2, h3, fun hr => hb hr⟩

/-- Claim C5: `ThreadPool::enqueue` called after `shutdown()` has begun
(`stop = true`) rejects the task — the caller gets the
"Cannot enqueue on stopped ThreadPool" exception, and the pool, its queue
included, is unchanged and no worker is woken; otherwise the task is
appended at the back of the FIFO queue, the rest of the pool state is
untouched, and exactly one `condition.notify_one()` call is issued. -/
theorem ThreadPool.enqueueSpec (t : Task) (s : PoolState) :
    (s.stop = true →
      ThreadPool.enqueue t s =
        { accepted := false, pool := s, notifyOneCalls := 0 }) ∧
    (s.stop = false →
      (ThreadPool.enqueue t s).accepted = true ∧
      (ThreadPool.enqueue t s).pool.tasks = s.tasks ++ [t] ∧
      (ThreadPool.enqueue t s).pool.stop = s.stop ∧
      (ThreadPool.enqueue t s).pool.workerStates = s.workerStates ∧
      (ThreadPool.enqueue t s).pool.activeTasks = s.activeTasks ∧
      (ThreadPool.enqueue t s).notifyOneCalls = 1) := by
  constructor <;> intro h <;> simp [ThreadPool.enqueue, h]

theorem ThreadPool.enqueueSpec_witness :
    ThreadPool.enqueue 42 ⟨true, [7], [ThreadState.IDLE], 0⟩ =
      { accepted := false, pool := ⟨true, [7], [ThreadState.IDLE], 0⟩
        notifyOneCalls := 0 } ∧
    (ThreadPool.enqueue 42 ⟨false, [7], [ThreadState.IDLE], 0⟩).pool.tasks =
      [7, 42] ∧
    (ThreadPool.enqueue 42 ⟨false, [7], [ThreadState.IDLE], 0⟩).notifyOneCalls = 1 := by
  refine ⟨(ThreadPool.enqueueSpec 42 ⟨true, [7], [ThreadState.IDLE], 0⟩).1 rfl, ?_, ?_⟩
  · exact ((ThreadPool.enqueueSpec 42 ⟨false, [7], [ThreadState.IDLE], 0⟩).2 rfl).2.1
  · exact ((ThreadPool.enqueueSpec 42 ⟨false, [7], [ThreadState.IDLE], 0⟩).2 rfl).2.2.2.2.2

/-- Claim C6: in every reachable `RWLock` state, `writeUnlock` issues
`writeCV.notify_one()` (waking one waiting writer) exactly when the
waiting-writer count is positive, and issues `readCV.notify_all()` (waking
all waiting readers) exactly when no writer is waiting; in particular it
never wakes readers while a writer is waiting. -/
theorem RWLock.writeUnlockWakePolicy (s : RWState) (hr : RWLock.Reachable s) :
    (0 < s.waitingWriters → (RWLock.writeUnlock s).2 = Wake.oneWriter) ∧
    (s.waitingWriters = 0 → (RWLock.writeUnlock s).2 = Wake.allReaders) ∧
    ((RWLock.writeUnlock s).2 = Wake.allReaders → s.waitingWriters = 0) := by
  obtain ⟨_, _, h3, _, _⟩ := RWLock.reachable_counters hr
  have hred : (RWLock.writeUnlock s).2 =
      if 0 < s.waitingWriters then Wake.oneWriter else Wake.allReaders := by
    simp only [RWLock.writeUnlock]
    split <;> rfl
  refine ⟨?_, ?_, ?_⟩ <;> rw [hred]
  · intro h
    rw [if_pos h]
  · intro h
    rw [if_neg (by omega)]
  · intro h
    by_cases hww : 0 < s.waitingWriters
    · rw [if_pos hww] at h
      exact absurd h (by decide)
    · omega

theorem RWLock.writeUnlockWakePolicy_witness :
    (RWLock.writeUnlock ⟨0, 1, 1⟩).2 = Wake.oneWriter ∧
    (RWLock.writeUnlock ⟨0, 1, 0⟩).2 = Wake.allReaders := by
  have hr1 : RWLock.Reachable ⟨0, 1, 1⟩ :=
    RWLock.Reachable.writeAdmitStep _
      (RWLock.Reachable.writeRegisterStep _
        (RWLock.Reachable.writeRegisterStep _ RWLock.Reachable.init))
      rfl rfl (by decide)
  have hr0 : RWLock.Reachable ⟨0, 1, 0⟩ :=
    RWLock.Reachable.writeAdmitStep _
      (RWLock.Reachable.writeRegisterStep _ RWLock.Reachable.init)
      rfl rfl (by decide)
  exact ⟨(RWLock.writeUnlockWakePolicy ⟨0, 1, 1⟩ hr1).1 (by decide),
    (RWLock.writeUnlockWakePolicy ⟨0, 1, 0⟩ hr0).2.1 rfl⟩

/-- Claim C7: `ThreadPool::shutdown` is idempotent.  A completed first
`shutdown()` leaves `stop = true`, and the source never clears `stop`; any
later call then returns from the early-exit branch with the pool state —
stop flag, task queue, worker states, active count — unchanged, issuing no
notification and joining no thread. -/
theorem ThreadPool.shutdownIdempotent (s : PoolState) (h : s.stop = true) :
    ThreadPool.shutdown s =
      { pool := s, notifyAllCalls := 0, joinedWorkers := false } := by
  simp [ThreadPool.shutdown, h]

theorem ThreadPool.shutdownIdempotent_witness :
    ThreadPool.shutdown ⟨true, [], [ThreadState.TERMINATED], 0⟩ =
      { pool := ⟨true, [], [ThreadState.TERMINATED], 0⟩
        notifyAllCalls := 0, joinedWorkers := false } :=
  ThreadPool.shutdownIdempotent ⟨true, [], [ThreadState.TERMINATED], 0⟩ rfl

/-- Claim C8: on a `Semaphore` whose `sem_init` failed
(`initialized = false`), every operation short-circuits before touching the
underlying semaphore — whatever the external `sem_wait` / `sem_trywait` /
`sem_timedwait` / `sem_post` / `sem_getvalue` calls would do — returning
`false` (resp. `-1` for `getValue`) with the state unchanged, so no
operation is undefined or reports success. -/
theorem Semaphore.uninitializedOpsFail
    (semWait semTryWait semPost : SemState → Bool × SemState)
    (semTimedWait : SemState → Timespec → Bool × SemState)
    (semGetValue : SemState → Option Int)
    (s : SemState) (now : Timespec) (ms : Nat)
    (h : s.initialized = false) :
    Semaphore.wait semWait s = (false, s) ∧
    Semaphore.tryWait semTryWait s = (false, s) ∧
    Semaphore.timedWait semTimedWait now ms s = (false, s) ∧
    Semaphore.post semPost s = (false, s) ∧
    Semaphore.getValue semGetValue s = -1 := by
  refine ⟨?_, ?_, ?_, ?_, ?_⟩ <;>
    simp [Semaphore.wait, Semaphore.tryWait, Semaphore.timedWait,
      Semaphore.post, Semaphore.getValue, h]

theorem Semaphore.uninitializedOpsFail_witness :
    Semaphore.wait (fun s => (true, s)) ⟨false, 5⟩ = (false, ⟨false, 5⟩) ∧
    Semaphore.tryWait (fun s => (true, s)) ⟨false, 5⟩ = (false, ⟨false, 5⟩) ∧
    Semaphore.timedWait (fun s _ => (true, s)) ⟨10, 0⟩ 100 ⟨false, 5⟩ =
      (false, ⟨false, 5⟩) ∧
    Semaphore.post (fun s => (true, s)) ⟨false, 5⟩ = (false, ⟨false, 5⟩) ∧
    Semaphore.getValue (fun _ => some 7) ⟨false, 5⟩ = -1 :=
  Semaphore.uninitializedOpsFail (fun s => (true, s)) (fun s => (true, s))
    (fun s => (true, s)) (fun s _ => (true, s)) (fun _ => some 7)
    ⟨false, 5⟩ ⟨10, 0⟩ 100 rfl

/-- Claim C9: `ThreadPool::getThreadState` returns `TERMINATED` for every
index not smaller than the number of workers, without indexing out of
bounds, and returns the stored state of worker `id` for every valid index;
it is a pure read of the worker-state vector, leaving the pool state
unchanged. -/
theorem ThreadPool.getThreadStateSpec (ws : List ThreadState) (id : Nat) :
    (ws.length ≤ id → ThreadPool.getThreadState ws id = ThreadState.TERMINATED) ∧
    (∀ h : id < ws.length, ThreadPool.getThreadState ws id = ws.get ⟨id, h⟩) := by
  constructor
  · intro h
    rw [ThreadPool.getThreadState, dif_neg (Nat.not_lt.mpr h)]
  · intro h
    rw [ThreadPool.getThreadState, dif_pos h]

theorem ThreadPool.getThreadStateSpec_witness :
    ThreadPool.getThreadState [ThreadState.IDLE, ThreadState.RUNNING] 5 =
      ThreadState.TERMINATED ∧
    ThreadPool.getThreadState [ThreadState.IDLE, ThreadState.RUNNING] 1 =
      ThreadState.RUNNING :=
  ⟨(ThreadPool.getThreadStateSpec [ThreadState.IDLE, ThreadState.RUNNING] 5).1
      (by decide),
    (ThreadPool.getThreadStateSpec [ThreadState.IDLE, ThreadState.RUNNING] 1).2
      (by decide)⟩

/-- Claim C10: for a non-negative timeout of `ms` milliseconds and any
current `CLOCK_REALTIME` time with a normalized nanosecond field, the
absolute deadline computed inside `Semaphore::timedWait` equals the current
time plus the timeout exactly (in nanoseconds), and its `tv_nsec` field is
again normalized to `[0, 1000000000)`. -/
theorem Semaphore.timedWaitDeadlineExact (now : Timespec) (ms : Nat) :
    (Semaphore.timedWaitDeadline now ms).toNanos =
      now.toNanos + ms * 1000000 ∧
    (Semaphore.timedWaitDeadline now ms).tv_nsec < 1000000000 := by
  unfold Semaphore.timedWaitDeadline Timespec.toNanos
  constructor
  · simp only []
    omega
  · simp only []
    omega

end PTManager
